import Mathlib

/-!
Shallow embedding of the desktop_mcp plugin core
(src/desktop_mcp/core/plugin.py, plugin_registry.py, npm_plugin_loader.py).

Python dicts are modelled as insertion-ordered association lists with
unique keys; dict assignment updates in place or appends; `pop(k, None)`
removes the key; `list.remove(x)` removes the first occurrence and its
ValueError is swallowed by the callers we model.  Python exceptions are
modelled with `Except String`: `.error e` is a raised exception carrying
the message `str(e)`.
-/

/-- JSON-ish values passed through plugin calls. -/
inductive Val where
  | vnull : Val
  | vbool : Bool → Val
  | vnat : Nat → Val
  | vstr : String → Val
deriving DecidableEq

/-- Keyword-argument mapping (`**kwargs`). -/
def Kwargs : Type := List (String × Val)

instance : DecidableEq Kwargs := by
  unfold Kwargs
  infer_instance

/-- plugin.py `PluginResult`: success flag, optional data, optional error. -/
structure PluginResult where
  success : Bool
  data : Option Val := none
  error : Option String := none
deriving DecidableEq

/-- plugin.py `PluginResult.success(data)`. -/
def PRsuccess (d : Option Val) : PluginResult :=
  { success := true, data := d, error := none }

/-- plugin.py `PluginResult.failure(error)`. -/
def PRfailure (e : String) : PluginResult :=
  { success := false, data := none, error := some e }

/-- A registered MCP callable: `func(**kwargs)` either returns a value
or raises. -/
def Callable : Type := Kwargs → Except String Val

/-- Behaviour bundle of one plugin object, as visible to the registry
(plugin.py `BasePlugin` and its three role subclasses; the `is*` flags
model Python `isinstance` checks against `MCPFunctionPlugin`,
`EventPlugin`, `MiddlewarePlugin` and `NPMPlugin`). `cleanupRuns` counts
how many times `cleanup` has been invoked on the object. -/
structure Plugin where
  name : String
  enabled : Bool := true
  initialized : Bool := false
  cleanupRuns : Nat := 0
  isNPM : Bool := false
  isFunctionPlugin : Bool := false
  functions : List (String × Callable) := []
  schemas : List (String × Val) := []
  isEventPlugin : Bool := false
  supportedEvents : List String := []
  handleEvent : String → Val → Except String PluginResult := fun _ _ => Except.ok (PRsuccess none)
  isMiddleware : Bool := false
  processRequestFn : String → Kwargs → Except String Kwargs := fun _ kw => Except.ok kw
  processResponseFn : String → PluginResult → Except String PluginResult := fun _ r => Except.ok r
  initFn : Except String Bool := Except.ok true
  cleanupFn : Except String Unit := Except.ok ()

/-- Insertion-ordered dict lookup. -/
def alookup {α : Type} (l : List (String × α)) (k : String) : Option α :=
  match l with
  | [] => none
  | (k', v) :: rest => if k' = k then some v else alookup rest k

/-- Dict assignment `d[k] = v`: update in place, or append if absent. -/
def aset {α : Type} (l : List (String × α)) (k : String) (v : α) : List (String × α) :=
  match l with
  | [] => [(k, v)]
  | (k', v') :: rest => if k' = k then (k, v) :: rest else (k', v') :: aset rest k v

/-- Dict removal `d.pop(k, None)` (no-op when absent).  Keys of the
modelled dicts are unique (`aset` never duplicates a key), so removing
every entry with key `k` coincides with removing the unique one. -/
def aerase {α : Type} (l : List (String × α)) (k : String) : List (String × α) :=
  match l with
  | [] => []
  | (k', v') :: rest => if k' = k then aerase rest k else (k', v') :: aerase rest k

/-- Python `list.remove(x)` with the ValueError swallowed. -/
def removeFirst (l : List String) (x : String) : List String :=
  match l with
  | [] => []
  | y :: rest => if y = x then rest else y :: removeFirst rest x

/-- plugin_registry.py `PluginRegistry` mutable state.  Handler lists and
the middleware chain hold plugin names standing for the Python object
references (registration keeps at most one object per name, so names
identify objects).  `nodeAvailable` models the environment answer of
`_check_node_availability`. -/
structure Registry where
  plugins : List (String × Plugin) := []
  mcp_functions : List (String × Callable) := []
  function_schemas : List (String × Val) := []
  event_handlers : List (String × List String) := []
  middleware_plugins : List String := []
  nodeAvailable : Bool := true

/-- plugin.py `BasePlugin._safe_initialize`: runs `initialize`, catching
exceptions; only a `True` return marks the plugin initialized. -/
def safeInit (p : Plugin) : Bool × Plugin :=
  match p.initFn with
  | Except.ok true => (true, { p with initialized := true })
  | Except.ok false => (false, p)
  | Except.error _ => (false, p)

/-- plugin.py `BasePlugin._safe_cleanup`: always invokes `cleanup`
(counted by `cleanupRuns`); the initialized flag is cleared only when
`cleanup` does not raise. -/
def safeCleanup (p : Plugin) : Plugin :=
  match p.cleanupFn with
  | Except.ok _ => { p with cleanupRuns := p.cleanupRuns + 1, initialized := false }
  | Except.error _ => { p with cleanupRuns := p.cleanupRuns + 1 }

/-- plugin_registry.py `PluginRegistry._register_plugin`: a name already
present is skipped (logged, not raised); otherwise the plugin is added. -/
def register_plugin (reg : Registry) (p : Plugin) : Registry :=
  match alookup reg.plugins p.name with
  | some _ => reg
  | none => { reg with plugins := aset reg.plugins p.name p }

/-- Folding a sequence of `_register_plugin` calls. -/
def register_all (reg : Registry) (ps : List Plugin) : Registry :=
  ps.foldl register_plugin reg

/-- The function-publishing loop of `_register_plugin_functions`:
`self.mcp_functions[func_name] = func`, plus the schema when declared. -/
def publishFunctions (schemas : List (String × Val)) :
    List (String × Callable) → Registry → Registry
  | [], reg => reg
  | (fn, f) :: rest, reg =>
    let reg1 := { reg with mcp_functions := aset reg.mcp_functions fn f }
    let reg2 :=
      match alookup schemas fn with
      | some s => { reg1 with function_schemas := aset reg1.function_schemas fn s }
      | none => reg1
    publishFunctions schemas rest reg2

/-- The event-subscription loop of `_register_plugin_functions`. -/
def subscribeEvents (pname : String) : List String → Registry → Registry
  | [], reg => reg
  | et :: rest, reg =>
    let cur := (alookup reg.event_handlers et).getD []
    subscribeEvents pname rest
      { reg with event_handlers := aset reg.event_handlers et (cur ++ [pname]) }

/-- plugin_registry.py `PluginRegistry._register_plugin_functions`. -/
def register_plugin_functions (reg : Registry) (p : Plugin) : Registry :=
  let reg1 := if p.isFunctionPlugin then publishFunctions p.schemas p.functions reg else reg
  let reg2 := if p.isEventPlugin then subscribeEvents p.name p.supportedEvents reg1 else reg1
  if p.isMiddleware then
    { reg2 with middleware_plugins := reg2.middleware_plugins ++ [p.name] }
  else reg2

/-- The function-removal loop of `_unregister_plugin_functions`:
`pop(func_name, None)` on both tables. -/
def unpublishFunctions : List (String × Callable) → Registry → Registry
  | [], reg => reg
  | (fn, _) :: rest, reg =>
    unpublishFunctions rest
      { reg with mcp_functions := aerase reg.mcp_functions fn,
                 function_schemas := aerase reg.function_schemas fn }

/-- The event-unsubscription loop of `_unregister_plugin_functions`
(`list.remove` with ValueError swallowed). -/
def unsubscribeEvents (pname : String) : List String → Registry → Registry
  | [], reg => reg
  | et :: rest, reg =>
    match alookup reg.event_handlers et with
    | some hs =>
      unsubscribeEvents pname rest
        { reg with event_handlers := aset reg.event_handlers et (removeFirst hs pname) }
    | none => unsubscribeEvents pname rest reg

/-- plugin_registry.py `PluginRegistry._unregister_plugin_functions`. -/
def unregister_plugin_functions (reg : Registry) (p : Plugin) : Registry :=
  let reg1 := if p.isFunctionPlugin then unpublishFunctions p.functions reg else reg
  let reg2 := if p.isEventPlugin then unsubscribeEvents p.name p.supportedEvents reg1 else reg1
  if p.isMiddleware then
    { reg2 with middleware_plugins := removeFirst reg2.middleware_plugins p.name }
  else reg2

/-- plugin_registry.py `PluginRegistry.load_plugin`: unknown name fails;
already-initialized is a success no-op; an NPM plugin needs Node; then
`_safe_initialize` decides whether the plugin's contributions are
published. -/
def load_plugin (reg : Registry) (name : String) : Bool × Registry :=
  match alookup reg.plugins name with
  | none => (false, reg)
  | some p =>
    if p.initialized then (true, reg)
    else if p.isNPM && !reg.nodeAvailable then (false, reg)
    else
      match safeInit p with
      | (true, p2) =>
        let reg2 := { reg with plugins := aset reg.plugins name p2 }
        (true, register_plugin_functions reg2 p2)
      | (false, p2) =>
        (false, { reg with plugins := aset reg.plugins name p2 })

/-- plugin_registry.py `PluginRegistry.unload_plugin`: unknown name fails;
otherwise `_safe_cleanup` runs unconditionally and the plugin's declared
contributions are unpublished, reporting success. -/
def unload_plugin (reg : Registry) (name : String) : Bool × Registry :=
  match alookup reg.plugins name with
  | none => (false, reg)
  | some p =>
    let p2 := safeCleanup p
    let reg2 := { reg with plugins := aset reg.plugins name p2 }
    (true, unregister_plugin_functions reg2 p2)

/-- Dispatch trace events: which middleware request/response hooks ran and
whether the target callable was invoked. -/
inductive Ev where
  | mwRequest : String → Ev
  | target : Ev
  | mwResponse : String → Ev
deriving DecidableEq

/-- Observable outcome of `PluginRegistry.call_function`.
`methodNotFound` is the early `raise ValueError`; `middlewareFault` is an
exception raised inside a middleware hook, which the code lets escape
unwrapped; `returned` is the normal return of `plugin_result.data`;
`raisedError` is the final `raise Exception(plugin_result.error)`. -/
inductive CallOutcome where
  | methodNotFound : String → CallOutcome
  | middlewareFault : String → CallOutcome
  | returned : Option Val → CallOutcome
  | raisedError : Option String → CallOutcome
deriving DecidableEq

/-- The `if middleware.enabled and middleware.initialized` guard: resolve a
middleware name to its plugin when that plugin is active. -/
def mwActive (reg : Registry) (m : String) : Option Plugin :=
  match alookup reg.plugins m with
  | none => none
  | some p => if p.enabled && p.initialized then some p else none

/-- The request loop of `call_function`: fold the kwargs through each
active middleware's `process_request`; an exception aborts the loop. -/
def processRequestChain (reg : Registry) (fname : String) :
    List String → Kwargs → (Except String Kwargs) × List Ev
  | [], kw => (Except.ok kw, [])
  | m :: rest, kw =>
    match mwActive reg m with
    | none => processRequestChain reg fname rest kw
    | some p =>
      match p.processRequestFn fname kw with
      | Except.error e => (Except.error e, [Ev.mwRequest m])
      | Except.ok kw2 =>
        let r := processRequestChain reg fname rest kw2
        (r.1, Ev.mwRequest m :: r.2)

/-- The response loop of `call_function` (the caller passes the reversed
middleware list). -/
def processResponseChain (reg : Registry) (fname : String) :
    List String → PluginResult → (Except String PluginResult) × List Ev
  | [], r => (Except.ok r, [])
  | m :: rest, r =>
    match mwActive reg m with
    | none => processResponseChain reg fname rest r
    | some p =>
      match p.processResponseFn fname r with
      | Except.error e => (Except.error e, [Ev.mwResponse m])
      | Except.ok r2 =>
        let rr := processResponseChain reg fname rest r2
        (rr.1, Ev.mwResponse m :: rr.2)

/-- plugin_registry.py `PluginRegistry.call_function`, instrumented with
the trace of middleware hooks and target invocation.  Only the target
call sits in a try/except; middleware exceptions escape as
`middlewareFault`. -/
def call_function (reg : Registry) (fname : String) (kw : Kwargs) :
    CallOutcome × List Ev :=
  match alookup reg.mcp_functions fname with
  | none => (CallOutcome.methodNotFound fname, [])
  | some func =>
    match processRequestChain reg fname reg.middleware_plugins kw with
    | (Except.error e, tr) => (CallOutcome.middlewareFault e, tr)
    | (Except.ok kw2, tr) =>
      let pr : PluginResult :=
        match func kw2 with
        | Except.ok v => PRsuccess (some v)
        | Except.error e => PRfailure e
      match processResponseChain reg fname reg.middleware_plugins.reverse pr with
      | (Except.error e, tr2) => (CallOutcome.middlewareFault e, tr ++ Ev.target :: tr2)
      | (Except.ok r, tr2) =>
        if r.success then (CallOutcome.returned r.data, tr ++ Ev.target :: tr2)
        else (CallOutcome.raisedError r.error, tr ++ Ev.target :: tr2)

/-- One subscriber's entry in `emit_event`'s result list: the handler's
own result, or `PluginResult.failure(str(e))` when it raises. -/
def handlerOutcome (p : Plugin) (et : String) (d : Val) : PluginResult :=
  match p.handleEvent et d with
  | Except.ok r => r
  | Except.error e => PRfailure e

/-- The subscriber loop of `emit_event`: each enabled, initialized handler
runs in order; a raising handler contributes a failure entry and the loop
continues. -/
def runHandlers (reg : Registry) (et : String) (d : Val) :
    List String → List PluginResult
  | [] => []
  | h :: rest =>
    match alookup reg.plugins h with
    | none => runHandlers reg et d rest
    | some p =>
      if p.enabled && p.initialized then
        handlerOutcome p et d :: runHandlers reg et d rest
      else runHandlers reg et d rest

/-- plugin_registry.py `PluginRegistry.emit_event`. -/
def emit_event (reg : Registry) (et : String) (d : Val) : List PluginResult :=
  match alookup reg.event_handlers et with
  | none => []
  | some hs => runHandlers reg et d hs

/-- Pointwise update of the enabled flag of the plugin stored under
`pname`. -/
def setEnabledList (pname : String) (b : Bool) :
    List (String × Plugin) → List (String × Plugin)
  | [] => []
  | (k, p) :: rest =>
    if k = pname then (k, { p with enabled := b }) :: setEnabledList pname b rest
    else (k, p) :: setEnabledList pname b rest

/-- plugin.py `BasePlugin.enable` / `disable` applied to the registered
object of the given name (the `plugins` table is the unique store of the
object, so flipping the flag there models the in-place mutation). -/
def setEnabled (reg : Registry) (pname : String) (b : Bool) : Registry :=
  { reg with plugins := setEnabledList pname b reg.plugins }

/-- The `error` member of a JSON-RPC response line. -/
structure ErrObj where
  code : Int
  message : String
deriving DecidableEq

/-- A parsed JSON-RPC response object: `response.get("result")` and the
optional `error` member as `NPMPluginBridge.call_function` consumes them. -/
structure WireResp where
  error : Option ErrObj := none
  result : Option Val := none
deriving DecidableEq

/-- What the environment does during one bridge call, covering every
suspension of `NPMPluginBridge.call_function`: the write to stdin raises
(closed stream), the read from stdout raises, the child reaches EOF
before writing a line (readline returns an empty bytes object), or a
line arrives and `json.loads` either fails or yields a response. -/
inductive WireEvent where
  | writeFail : String → WireEvent
  | readFail : String → WireEvent
  | eofLine : WireEvent
  | gotLine : Except String WireResp → WireEvent

/-- npm_plugin_loader.py `NPMPluginBridge` state relevant to one call:
whether `self.process` is set, and the correlation counter. -/
structure Bridge where
  running : Bool := false
  request_id : Nat := 0
deriving DecidableEq

/-- The message `str(e)` of the json.JSONDecodeError raised by
`json.loads("")` when readline hits EOF. -/
def jsonEmptyDecodeMsg : String := "Expecting value: line 1 column 1 (char 0)"

/-- npm_plugin_loader.py `NPMPluginBridge.call_function`: no process is an
immediate failure; otherwise the correlation id is advanced, the request
written and one response line read; every exception inside the try block
is caught and returned as `PluginResult.failure(str(e))`; a response with
an `error` member fails with its message, otherwise the `result` member
is returned as success data. -/
def bridge_call (b : Bridge) (ev : WireEvent) : PluginResult × Bridge :=
  if b.running = false then (PRfailure "Plugin process not running", b)
  else
    let b2 : Bridge := { b with request_id := b.request_id + 1 }
    match ev with
    | WireEvent.writeFail e => (PRfailure e, b2)
    | WireEvent.readFail e => (PRfailure e, b2)
    | WireEvent.eofLine => (PRfailure jsonEmptyDecodeMsg, b2)
    | WireEvent.gotLine (Except.error e) => (PRfailure e, b2)
    | WireEvent.gotLine (Except.ok r) =>
      match r.error with
      | some err => (PRfailure err.message, b2)
      | none => (PRsuccess r.result, b2)

/-- Atomic actions of two concurrent bridge calls A and B on one channel:
each call writes its request (assigning the next correlation id) and then
reads one line from stdout.  `NPMPluginBridge` holds no lock — its state
is only `plugin_path`, `plugin_name`, `process` and `_request_id` — so
between the write and the read of one call (both `await` points) the
other call's actions may be scheduled freely. -/
inductive BAct where
  | writeA : BAct
  | readA : BAct
  | writeB : BAct
  | readB : BAct
deriving DecidableEq

/-- Channel state under two concurrent calls.  The child process answers
requests in arrival order, one line per request, each response carrying
the id of the request it answers; `written` is the pipe content (ids in
write order), `consumed` counts response lines already read, `idA`/`idB`
the correlation ids the two calls assigned, `gotA`/`gotB` the id carried
by the line each call actually read. -/
structure ChanState where
  request_id : Nat := 0
  written : List Nat := []
  consumed : Nat := 0
  idA : Option Nat := none
  idB : Option Nat := none
  gotA : Option Nat := none
  gotB : Option Nat := none
deriving DecidableEq

/-- One atomic action against the channel. -/
def bstep (s : ChanState) (a : BAct) : ChanState :=
  match a with
  | BAct.writeA =>
    let i := s.request_id + 1
    { s with request_id := i, idA := some i, written := s.written ++ [i] }
  | BAct.writeB =>
    let i := s.request_id + 1
    { s with request_id := i, idB := some i, written := s.written ++ [i] }
  | BAct.readA => { s with gotA := s.written.get? s.consumed, consumed := s.consumed + 1 }
  | BAct.readB => { s with gotB := s.written.get? s.consumed, consumed := s.consumed + 1 }

/-- Run a schedule of atomic actions from the fresh channel. -/
def brun (l : List BAct) : ChanState := l.foldl bstep {}

/-- `interleavesB xs ys zs` holds when `zs` is an interleaving of the two
per-call programs `xs` and `ys` (program order preserved within each). -/
def interleavesB : List BAct → List BAct → List BAct → Bool
  | xs, ys, [] => xs.isEmpty && ys.isEmpty
  | xs, ys, z :: zs =>
    (match xs with
     | x :: xr => x == z && interleavesB xr ys zs
     | [] => false)
    || (match ys with
        | y :: yr => y == z && interleavesB xs yr zs
        | [] => false)

/-- The plugin kept for a name after a registration sequence, per the
spec's "first registration wins". -/
def firstWithName : List Plugin → String → Option Plugin
  | [], _ => none
  | p :: rest, n => if p.name = n then some p else firstWithName rest n

/-- A callable returning 1, standing for plugin A's implementation of a
shared operation name. -/
def cA : Callable := fun _ => Except.ok (Val.vnat 1)

/-- A callable returning 2, standing for plugin B's implementation of the
same operation name. -/
def cB : Callable := fun _ => Except.ok (Val.vnat 2)

/-- Function plugin A publishing operation `f`. -/
def pA : Plugin :=
  { name := "A", isFunctionPlugin := true, functions := [("f", cA)],
    schemas := [("f", Val.vstr "schemaA")] }

/-- Function plugin B publishing the same operation name `f`. -/
def pB : Plugin :=
  { name := "B", isFunctionPlugin := true, functions := [("f", cB)],
    schemas := [("f", Val.vstr "schemaB")] }

/-- Registry after registering and loading A then B. -/
def regAB : Registry :=
  (load_plugin (load_plugin (register_all {} [pA, pB]) "A").2 "B").2

/-- `regAB` after unloading B. -/
def regABunloadB : Registry := (unload_plugin regAB "B").2

/-- A middleware plugin whose `process_request` raises. -/
def mwBoom : Plugin :=
  { name := "mw", isMiddleware := true,
    processRequestFn := fun _ _ => Except.error "boom" }

/-- A function plugin providing operation `f` that returns 7. -/
def provF : Plugin :=
  { name := "prov", isFunctionPlugin := true,
    functions := [("f", fun _ => Except.ok (Val.vnat 7))] }

/-- Registry with `prov` and the raising middleware both loaded. -/
def regMwBoom : Registry :=
  (load_plugin (load_plugin (register_all {} [provF, mwBoom]) "prov").2 "mw").2

/-- Function plugin used for the double-unload scenario. -/
def pC7 : Plugin :=
  { name := "P", isFunctionPlugin := true, functions := [("g", cA)] }

/-- Registry with `P` registered and loaded. -/
def regPloaded : Registry := (load_plugin (register_plugin {} pC7) "P").2

/-- `regPloaded` after one unload of `P`. -/
def regPunloaded : Registry := (unload_plugin regPloaded "P").2

/-- Event plugin whose handler raises. -/
def ehCrash : Plugin :=
  { name := "e1", isEventPlugin := true, supportedEvents := ["evt"],
    handleEvent := fun _ _ => Except.error "crash" }

/-- Event plugin whose handler succeeds with data 5. -/
def ehOk : Plugin :=
  { name := "e2", isEventPlugin := true, supportedEvents := ["evt"],
    handleEvent := fun _ _ => Except.ok (PRsuccess (some (Val.vnat 5))) }

/-- Registry with both event plugins loaded, `e1` subscribed before `e2`. -/
def regEvents : Registry :=
  (load_plugin (load_plugin (register_all {} [ehCrash, ehOk]) "e1").2 "e2").2

/-- Registry demonstrating that `emit_event` consults the enabled flag:
one loaded event subscriber. -/
def regEvtOn : Registry :=
  (load_plugin (register_plugin {} ehOk) "e2").2

/-- A middleware that raises, used to make the middleware chain's effect
on `call_function` observable. -/
def mwBoom2 : Plugin :=
  { name := "mw2", isMiddleware := true,
    processRequestFn := fun _ _ => Except.error "mw2 boom" }

/-- Registry demonstrating that the middleware chain consults the enabled
flag: provider `prov` and middleware `mw2` loaded. -/
def regMwOn : Registry :=
  (load_plugin (load_plugin (register_all {} [provF, mwBoom2]) "prov").2 "mw2").2

theorem alookup_aset_self {α : Type} (l : List (String × α)) (k : String) (v : α) :
    alookup (aset l k v) k = some v := by
  induction l with
  | nil => simp [aset, alookup]
  | cons hd tl ih =>
    obtain ⟨k', v'⟩ := hd
    by_cases h : k' = k
    · simp [aset, alookup, h]
    · simp [aset, alookup, h, ih]

theorem alookup_aset_ne {α : Type} (l : List (String × α)) (k k' : String) (v : α)
    (h : k' ≠ k) : alookup (aset l k v) k' = alookup l k' := by
  have hkk : ¬ (k = k') := fun hh => h hh.symm
  induction l with
  | nil => simp [aset, alookup, hkk]
  | cons hd tl ih =>
    obtain ⟨k0, v0⟩ := hd
    by_cases h0 : k0 = k
    · subst h0
      simp [aset, alookup, hkk]
    · by_cases h1 : k0 = k'
      · simp [aset, alookup, h0, h1, h]
      · simp [aset, alookup, h0, h1, ih]

theorem alookup_aerase_self {α : Type} (l : List (String × α)) (k : String) :
    alookup (aerase l k) k = none := by
  induction l with
  | nil => simp [aerase, alookup]
  | cons hd tl ih =>
    obtain ⟨k0, v0⟩ := hd
    by_cases h0 : k0 = k
    · simp [aerase, h0, ih]
    · simp [aerase, alookup, h0, ih]

theorem alookup_aerase_ne {α : Type} (l : List (String × α)) (k k' : String)
    (h : k' ≠ k) : alookup (aerase l k) k' = alookup l k' := by
  have hkk : ¬ (k = k') := fun hh => h hh.symm
  induction l with
  | nil => simp [aerase, alookup]
  | cons hd tl ih =>
    obtain ⟨k0, v0⟩ := hd
    by_cases h0 : k0 = k
    · subst h0
      simp [aerase, alookup, hkk, ih]
    · by_cases h1 : k0 = k'
      · simp [aerase, alookup, h0, h1, h, ih]
      · simp [aerase, alookup, h0, h1, ih]

theorem alookup_eq_none_iff {α : Type} (l : List (String × α)) (k : String) :
    alookup l k = none ↔ k ∉ l.map Prod.fst := by
  induction l with
  | nil => simp [alookup]
  | cons hd tl ih =>
    obtain ⟨k0, v0⟩ := hd
    by_cases h : k0 = k
    · subst h
      simp [alookup]
    · have hk : k ≠ k0 := fun hh => h hh.symm
      simp only [alookup, h, if_false, List.map_cons, List.mem_cons, ih]
      constructor
      · intro hnm hor
        cases hor with
        | inl hh => exact hk hh
        | inr hh => exact hnm hh
      · intro hno hm
        exact hno (Or.inr hm)

theorem aset_absent {α : Type} (l : List (String × α)) (k : String) (v : α)
    (h : alookup l k = none) : aset l k v = l ++ [(k, v)] := by
  induction l with
  | nil => simp [aset]
  | cons hd tl ih =>
    obtain ⟨k0, v0⟩ := hd
    by_cases h0 : k0 = k
    · simp [alookup, h0] at h
    · simp only [alookup, h0, if_false] at h
      simp [aset, h0, ih h]

theorem aset_of_alookup_eq {α : Type} (l : List (String × α)) (k : String) (v : α)
    (h : alookup l k = some v) : aset l k v = l := by
  induction l with
  | nil => simp [alookup] at h
  | cons hd tl ih =>
    obtain ⟨k0, v0⟩ := hd
    by_cases h0 : k0 = k
    · subst h0
      simp only [alookup, if_pos rfl] at h
      cases h
      simp [aset]
    · simp only [alookup, h0, if_false] at h
      simp [aset, h0, ih h]

theorem unpublishFunctions_plugins (fns : List (String × Callable)) (reg : Registry) :
    (unpublishFunctions fns reg).plugins = reg.plugins := by
  induction fns generalizing reg with
  | nil => rfl
  | cons hd rest ih =>
    obtain ⟨fn, f⟩ := hd
    simp [unpublishFunctions, ih]

theorem unpublishFunctions_mcp (fns : List (String × Callable)) (reg : Registry) (fn : String) :
    alookup (unpublishFunctions fns reg).mcp_functions fn =
      if (alookup fns fn).isSome then none else alookup reg.mcp_functions fn := by
  induction fns generalizing reg with
  | nil => simp [unpublishFunctions, alookup]
  | cons hd rest ih =>
    obtain ⟨k, f⟩ := hd
    by_cases h : k = fn
    · subst h
      simp only [unpublishFunctions]
      rw [ih]
      by_cases h2 : (alookup rest k).isSome
      · simp [alookup, h2]
      · simp [alookup, h2, alookup_aerase_self]
    · simp only [unpublishFunctions]
      rw [ih]
      have hfn : fn ≠ k := fun hh => h hh.symm
      by_cases h2 : (alookup rest fn).isSome
      · simp [alookup, h, h2]
      · simp [alookup, h, h2, alookup_aerase_ne _ _ _ hfn]

theorem unpublishFunctions_schemas (fns : List (String × Callable)) (reg : Registry) (fn : String) :
    alookup (unpublishFunctions fns reg).function_schemas fn =
      if (alookup fns fn).isSome then none else alookup reg.function_schemas fn := by
  induction fns generalizing reg with
  | nil => simp [unpublishFunctions, alookup]
  | cons hd rest ih =>
    obtain ⟨k, f⟩ := hd
    by_cases h : k = fn
    · subst h
      simp only [unpublishFunctions]
      rw [ih]
      by_cases h2 : (alookup rest k).isSome
      · simp [alookup, h2]
      · simp [alookup, h2, alookup_aerase_self]
    · simp only [unpublishFunctions]
      rw [ih]
      have hfn : fn ≠ k := fun hh => h hh.symm
      by_cases h2 : (alookup rest fn).isSome
      · simp [alookup, h, h2]
      · simp [alookup, h, h2, alookup_aerase_ne _ _ _ hfn]

theorem unsubscribeEvents_plugins (pname : String) (ets : List String) (reg : Registry) :
    (unsubscribeEvents pname ets reg).plugins = reg.plugins := by
  induction ets generalizing reg with
  | nil => rfl
  | cons et rest ih =>
    simp only [unsubscribeEvents]
    cases alookup reg.event_handlers et <;> simp [ih]

theorem unsubscribeEvents_mcp (pname : String) (ets : List String) (reg : Registry) :
    (unsubscribeEvents pname ets reg).mcp_functions = reg.mcp_functions := by
  induction ets generalizing reg with
  | nil => rfl
  | cons et rest ih =>
    simp only [unsubscribeEvents]
    cases alookup reg.event_handlers et <;> simp [ih]

theorem unsubscribeEvents_schemas (pname : String) (ets : List String) (reg : Registry) :
    (unsubscribeEvents pname ets reg).function_schemas = reg.function_schemas := by
  induction ets generalizing reg with
  | nil => rfl
  | cons et rest ih =>
    simp only [unsubscribeEvents]
    cases alookup reg.event_handlers et <;> simp [ih]

theorem unregister_plugins (reg : Registry) (p : Plugin) :
    (unregister_plugin_functions reg p).plugins = reg.plugins := by
  unfold unregister_plugin_functions
  by_cases hm : p.isMiddleware <;>
    by_cases he : p.isEventPlugin <;>
      by_cases hf : p.isFunctionPlugin <;>
        simp [hm, he, hf, unsubscribeEvents_plugins, unpublishFunctions_plugins]

theorem unregister_mcp (reg : Registry) (p : Plugin) (fn : String)
    (hfp : p.isFunctionPlugin = true) :
    alookup (unregister_plugin_functions reg p).mcp_functions fn =
      if (alookup p.functions fn).isSome then none else alookup reg.mcp_functions fn := by
  unfold unregister_plugin_functions
  by_cases hm : p.isMiddleware <;>
    by_cases he : p.isEventPlugin <;>
      simp [hm, he, hfp, unsubscribeEvents_mcp, unpublishFunctions_mcp]

theorem unregister_schemas (reg : Registry) (p : Plugin) (fn : String)
    (hfp : p.isFunctionPlugin = true) :
    alookup (unregister_plugin_functions reg p).function_schemas fn =
      if (alookup p.functions fn).isSome then none else alookup reg.function_schemas fn := by
  unfold unregister_plugin_functions
  by_cases hm : p.isMiddleware <;>
    by_cases he : p.isEventPlugin <;>
      simp [hm, he, hfp, unsubscribeEvents_schemas, unpublishFunctions_schemas]

theorem safeCleanup_fields (p : Plugin) :
    (safeCleanup p).cleanupRuns = p.cleanupRuns + 1 ∧
    (safeCleanup p).functions = p.functions ∧
    (safeCleanup p).schemas = p.schemas ∧
    (safeCleanup p).isFunctionPlugin = p.isFunctionPlugin ∧
    (safeCleanup p).isEventPlugin = p.isEventPlugin ∧
    (safeCleanup p).isMiddleware = p.isMiddleware ∧
    (safeCleanup p).supportedEvents = p.supportedEvents ∧
    (safeCleanup p).name = p.name := by
  rcases hp : p.cleanupFn <;> simp [safeCleanup, hp]


theorem register_plugin_keys_nodup (reg : Registry) (p : Plugin)
    (h : (reg.plugins.map Prod.fst).Nodup) :
    ((register_plugin reg p).plugins.map Prod.fst).Nodup := by
  unfold register_plugin
  cases hl : alookup reg.plugins p.name with
  | some q => simpa using h
  | none =>
    have habs := (alookup_eq_none_iff reg.plugins p.name).mp hl
    simp only [aset_absent _ _ _ hl, List.map_append]
    rw [List.nodup_append]
    refine ⟨h, List.nodup_singleton _, ?_⟩
    intro a ha hb
    simp only [List.map_cons, List.map_nil, List.mem_singleton] at hb
    subst hb
    exact habs ha

theorem register_all_keys_nodup (ps : List Plugin) (reg : Registry)
    (h : (reg.plugins.map Prod.fst).Nodup) :
    ((register_all reg ps).plugins.map Prod.fst).Nodup := by
  induction ps generalizing reg with
  | nil => simpa [register_all] using h
  | cons p rest ih =>
    simp only [register_all, List.foldl_cons]
    exact ih (register_plugin reg p) (register_plugin_keys_nodup reg p h)

theorem register_all_alookup (ps : List Plugin) (reg : Registry) (name : String) :
    alookup (register_all reg ps).plugins name =
      match alookup reg.plugins name with
      | some q => some q
      | none => firstWithName ps name := by
  induction ps generalizing reg with
  | nil =>
    cases hn : alookup reg.plugins name <;> simp [register_all, firstWithName, hn]
  | cons p rest ih =>
    simp only [register_all, List.foldl_cons]
    rw [show List.foldl register_plugin (register_plugin reg p) rest =
          register_all (register_plugin reg p) rest from rfl, ih]
    unfold register_plugin
    cases hl : alookup reg.plugins p.name with
    | some q =>
      by_cases he : p.name = name
      · subst he
        simp [hl, firstWithName]
      · cases hn : alookup reg.plugins name <;> simp [firstWithName, he, hn]
    | none =>
      by_cases he : p.name = name
      · subst he
        simp [alookup_aset_self, hl, firstWithName]
      · have hne : alookup (aset reg.plugins p.name p) name = alookup reg.plugins name :=
          alookup_aset_ne _ _ _ _ (fun hh => he hh.symm)
        simp only [hne]
        cases hn : alookup reg.plugins name <;> simp [firstWithName, he, hn]

theorem runHandlers_append (reg : Registry) (et : String) (d : Val) (xs ys : List String) :
    runHandlers reg et d (xs ++ ys) = runHandlers reg et d xs ++ runHandlers reg et d ys := by
  induction xs with
  | nil => simp [runHandlers]
  | cons h rest ih =>
    simp only [List.cons_append, runHandlers]
    cases alookup reg.plugins h with
    | none => simpa using ih
    | some p =>
      by_cases hp : p.enabled && p.initialized <;> simp [hp, ih]

theorem processRequestChain_trace_shape (reg : Registry) (fname : String)
    (names : List String) :
    ∀ kw, ∀ x ∈ (processRequestChain reg fname names kw).2, ∃ m, x = Ev.mwRequest m := by
  induction names with
  | nil =>
    intro kw x hx
    simp [processRequestChain] at hx
  | cons m rest ih =>
    intro kw x hx
    cases hma : mwActive reg m with
    | none =>
      simp only [processRequestChain, hma] at hx
      exact ih kw x hx
    | some p =>
      cases hpr : p.processRequestFn fname kw with
      | error e =>
        simp only [processRequestChain, hma, hpr] at hx
        simp at hx
        exact ⟨m, hx⟩
      | ok kw2 =>
        simp only [processRequestChain, hma, hpr] at hx
        simp at hx
        rcases hx with h | h
        · exact ⟨m, h⟩
        · exact ih kw2 x h

theorem alookup_setEnabledList_ne (pname : String) (b : Bool)
    (l : List (String × Plugin)) (m : String) (h : m ≠ pname) :
    alookup (setEnabledList pname b l) m = alookup l m := by
  induction l with
  | nil => simp [setEnabledList]
  | cons hd tl ih =>
    obtain ⟨k, v⟩ := hd
    by_cases hk : k = pname
    · subst hk
      have hkm : ¬ (k = m) := fun hh => h (hh.symm.trans rfl)
      simp [setEnabledList, alookup, hkm, ih]
    · by_cases hm : k = m <;> simp [setEnabledList, alookup, hk, hm, ih, h]

theorem mwActive_setEnabled_ne (reg : Registry) (pname : String) (b : Bool) (m : String)
    (h : m ≠ pname) :
    mwActive (setEnabled reg pname b) m = mwActive reg m := by
  unfold mwActive setEnabled
  simp only
  rw [alookup_setEnabledList_ne pname b reg.plugins m h]

theorem processRequestChain_setEnabled (reg : Registry) (pname : String) (b : Bool)
    (fname : String) (names : List String) :
    pname ∉ names → ∀ kw,
      processRequestChain (setEnabled reg pname b) fname names kw =
        processRequestChain reg fname names kw := by
  induction names with
  | nil => intro _ kw; rfl
  | cons m rest ih =>
    intro h kw
    have hm : m ≠ pname := fun hh => h (hh ▸ List.mem_cons_self m rest)
    have hrest : pname ∉ rest := fun hh => h (List.mem_cons_of_mem m hh)
    cases hma : mwActive reg m with
    | none =>
      simp only [processRequestChain, mwActive_setEnabled_ne reg pname b m hm, hma]
      exact ih hrest kw
    | some p =>
      cases hpr : p.processRequestFn fname kw with
      | error e =>
        simp only [processRequestChain, mwActive_setEnabled_ne reg pname b m hm, hma, hpr]
      | ok kw2 =>
        simp only [processRequestChain, mwActive_setEnabled_ne reg pname b m hm, hma, hpr,
          ih hrest kw2]

theorem processResponseChain_setEnabled (reg : Registry) (pname : String) (b : Bool)
    (fname : String) (names : List String) :
    pname ∉ names → ∀ r,
      processResponseChain (setEnabled reg pname b) fname names r =
        processResponseChain reg fname names r := by
  induction names with
  | nil => intro _ r; rfl
  | cons m rest ih =>
    intro h r
    have hm : m ≠ pname := fun hh => h (hh ▸ List.mem_cons_self m rest)
    have hrest : pname ∉ rest := fun hh => h (List.mem_cons_of_mem m hh)
    cases hma : mwActive reg m with
    | none =>
      simp only [processResponseChain, mwActive_setEnabled_ne reg pname b m hm, hma]
      exact ih hrest r
    | some p =>
      cases hpr : p.processResponseFn fname r with
      | error e =>
        simp only [processResponseChain, mwActive_setEnabled_ne reg pname b m hm, hma, hpr]
      | ok r2 =>
        simp only [processResponseChain, mwActive_setEnabled_ne reg pname b m hm, hma, hpr,
          ih hrest r2]

theorem call_function_setEnabled (reg : Registry) (pname : String) (b : Bool)
    (fname : String) (kw : Kwargs) (hmw : pname ∉ reg.middleware_plugins) :
    call_function (setEnabled reg pname b) fname kw = call_function reg fname kw := by
  have hrev : pname ∉ reg.middleware_plugins.reverse := by simpa using hmw
  unfold call_function
  have hk : (setEnabled reg pname b).mcp_functions = reg.mcp_functions := rfl
  have hl : (setEnabled reg pname b).middleware_plugins = reg.middleware_plugins := rfl
  rw [hk, hl]
  cases alookup reg.mcp_functions fname with
  | none => rfl
  | some func =>
    rw [processRequestChain_setEnabled reg pname b fname reg.middleware_plugins hmw kw]
    cases processRequestChain reg fname reg.middleware_plugins kw with
    | mk res tr =>
      cases res with
      | error e => rfl
      | ok kw2 =>
        simp only [processResponseChain_setEnabled reg pname b fname
          reg.middleware_plugins.reverse hrev]

/-- Claim C3: for every sequence of `register` calls the final registry
holds at most one plugin per name, the plugin kept for a name is the one
from the first registration of that name, and a second registration of an
existing name is rejected without raising and leaves the registry
unchanged. -/
theorem C3_registration_first_wins (ps : List Plugin) (name : String)
    (reg : Registry) (q : Plugin) (hdup : alookup reg.plugins q.name ≠ none) :
    ((register_all {} ps).plugins.map Prod.fst).Nodup ∧
    alookup (register_all {} ps).plugins name = firstWithName ps name ∧
    register_plugin reg q = reg := by
  refine ⟨?_, ?_, ?_⟩
  · exact register_all_keys_nodup ps {} (by simp)
  · have hr := register_all_alookup ps {} name
    simpa [alookup] using hr
  · unfold register_plugin
    cases hl : alookup reg.plugins q.name with
    | none => exact absurd hl hdup
    | some r => rfl

/-- Witness for C3 at a concrete registration sequence: two distinct
plugins, then a duplicate registration of the first one. -/
theorem C3_registration_first_wins_witness :
    ((register_all {} [pA, pB]).plugins.map Prod.fst).Nodup ∧
    alookup (register_all {} [pA, pB]).plugins "A" = firstWithName [pA, pB] "A" ∧
    register_plugin (register_all {} [pA, pB]) pA = register_all {} [pA, pB] :=
  C3_registration_first_wins [pA, pB] "A" (register_all {} [pA, pB]) pA
    (by intro h; exact Option.noConfusion h)

/-- Claim C5: calling a name absent from the operation table fails
immediately with the method-not-found error and the trace is empty — no
middleware request or response hook and no registered callable runs. -/
theorem C5_fail_closed_dispatch (reg : Registry) (name : String) (kw : Kwargs)
    (h : alookup reg.mcp_functions name = none) :
    call_function reg name kw = (CallOutcome.methodNotFound name, []) := by
  unfold call_function
  rw [h]

/-- Witness for C5: the empty registry with an unknown name. -/
theorem C5_fail_closed_dispatch_witness :
    call_function {} "nope" [] = (CallOutcome.methodNotFound "nope", []) :=
  C5_fail_closed_dispatch {} "nope" [] rfl

/-- Claim C4: if a plugin's `initialize` raises or returns a falsy value
during `load`, the load returns failure and the whole registry state —
operation, schema, event and middleware tables included — is exactly what
it was before the call. -/
theorem C4_partial_init_atomicity (reg : Registry) (name : String) (p : Plugin)
    (hp : alookup reg.plugins name = some p)
    (hini : p.initialized = false)
    (hfail : p.initFn ≠ Except.ok true) :
    load_plugin reg name = (false, reg) := by
  unfold load_plugin
  rw [hp]
  simp only [hini, Bool.false_eq_true, if_false]
  by_cases hn : p.isNPM && !reg.nodeAvailable
  · simp [hn]
  · cases hi : p.initFn with
    | ok bb =>
      cases bb with
      | true => exact absurd hi hfail
      | false => simp [hn, safeInit, hi, aset_of_alookup_eq _ _ _ hp]
    | error e => simp [hn, safeInit, hi, aset_of_alookup_eq _ _ _ hp]

/-- Witness for C4: a registered plugin whose `initialize` returns False. -/
theorem C4_partial_init_atomicity_witness :
    load_plugin (register_plugin {} { name := "bad", initFn := Except.ok false }) "bad" =
      (false, register_plugin {} { name := "bad", initFn := Except.ok false }) :=
  C4_partial_init_atomicity _ "bad" { name := "bad", initFn := Except.ok false } rfl rfl
    (by intro h; exact Bool.noConfusion (Except.ok.inj h))

/-- Claim C6: on a started channel every protocol failure — write raise,
read raise, EOF before a line, unparseable line — comes back as an
explicit failure result instead of an exception crossing the channel
boundary; a well-formed response with an `error` member fails with that
error's message; otherwise the `result` member is returned as success
data. -/
theorem C6_bridge_protocol_containment (b : Bridge) (ev : WireEvent)
    (h : b.running = true) :
    (∀ e, (ev = WireEvent.writeFail e ∨ ev = WireEvent.readFail e ∨
        ev = WireEvent.gotLine (Except.error e)) → (bridge_call b ev).1 = PRfailure e) ∧
    ((bridge_call b WireEvent.eofLine).1 = PRfailure jsonEmptyDecodeMsg) ∧
    (∀ r err, ev = WireEvent.gotLine (Except.ok r) → r.error = some err →
        (bridge_call b ev).1 = PRfailure err.message) ∧
    (∀ r, ev = WireEvent.gotLine (Except.ok r) → r.error = none →
        (bridge_call b ev).1 = PRsuccess r.result) := by
  refine ⟨?_, ?_, ?_, ?_⟩
  · rintro e (rfl | rfl | rfl) <;> simp [bridge_call, h]
  · simp [bridge_call, h]
  · rintro r err rfl herr
    simp [bridge_call, h, herr]
  · rintro r rfl herr
    simp [bridge_call, h, herr]

/-- Witness for C6: a running bridge receiving a well-formed error
response. -/
theorem C6_bridge_protocol_containment_witness :
    (bridge_call { running := true }
        (WireEvent.gotLine (Except.ok
          { error := some { code := -32603, message := "remote boom" }, result := none }))).1
      = PRfailure "remote boom" :=
  (C6_bridge_protocol_containment { running := true } _ rfl).2.2.1
    { error := some { code := -32603, message := "remote boom" }, result := none }
    { code := -32603, message := "remote boom" } rfl rfl

/-- Claim C9: when the subscriber list for an event type is
`pre ++ bad :: post` and `bad` is enabled, initialized and raises, the
emission result is the per-subscriber outcomes of `pre`, then the failure
entry carrying `bad`'s error, then the per-subscriber outcomes of `post` —
the failure stops nobody. -/
theorem C9_event_isolation (reg : Registry) (et : String) (d : Val)
    (pre post : List String) (bname : String) (bp : Plugin) (e : String)
    (hh : alookup reg.event_handlers et = some (pre ++ bname :: post))
    (hb : alookup reg.plugins bname = some bp)
    (hen : bp.enabled = true) (hini : bp.initialized = true)
    (hraise : bp.handleEvent et d = Except.error e) :
    emit_event reg et d =
      runHandlers reg et d pre ++ PRfailure e :: runHandlers reg et d post := by
  have hsplit : pre ++ bname :: post = (pre ++ [bname]) ++ post := by simp
  rw [hsplit] at hh
  simp only [emit_event, hh]
  rw [runHandlers_append, runHandlers_append]
  simp [runHandlers, hb, hen, hini, handlerOutcome, hraise]

/-- Witness for C9: subscriber `e1` raises, subscriber `e2` still runs. -/
theorem C9_event_isolation_witness :
    emit_event regEvents "evt" Val.vnull =
      runHandlers regEvents "evt" Val.vnull [] ++ PRfailure "crash" ::
        runHandlers regEvents "evt" Val.vnull ["e2"] :=
  C9_event_isolation regEvents "evt" Val.vnull [] ["e2"] "e1"
    { ehCrash with initialized := true } "crash" rfl rfl rfl rfl rfl

/-- Claim C1 is false as stated: loading plugin B silently overwrites
initialized plugin A's entry for the shared operation name `f`, and
unloading B then removes `f` although A (still initialized) had published
it — another plugin's entry is not left untouched. -/
theorem C1_counterexample :
    (alookup regAB.plugins "A").map Plugin.initialized = some true ∧
    (alookup regAB.mcp_functions "f").map (fun f => f []) =
      some (Except.ok (Val.vnat 2)) ∧
    (unload_plugin regAB "B").1 = true ∧
    (alookup regABunloadB.plugins "A").map Plugin.initialized = some true ∧
    alookup regABunloadB.mcp_functions "f" = none ∧
    alookup regABunloadB.function_schemas "f" = none :=
  ⟨rfl, rfl, rfl, rfl, rfl, rfl⟩

/-- Claim C1 (amended): unloading a registered function plugin removes
from the operation and schema tables exactly the names in its declared
operation set and leaves entries under every other name untouched;
entries of other plugins survive only when no operation name is shared,
because publication overwrites a colliding name silently. -/
theorem C1_unload_removes_exactly (reg : Registry) (name : String) (p : Plugin)
    (fn : String) (hp : alookup reg.plugins name = some p)
    (hfp : p.isFunctionPlugin = true) :
    alookup (unload_plugin reg name).2.mcp_functions fn =
      (if (alookup p.functions fn).isSome then none
       else alookup reg.mcp_functions fn) ∧
    alookup (unload_plugin reg name).2.function_schemas fn =
      (if (alookup p.functions fn).isSome then none
       else alookup reg.function_schemas fn) := by
  have hsf := safeCleanup_fields p
  have hfp2 : (safeCleanup p).isFunctionPlugin = true := by
    rw [hsf.2.2.2.1, hfp]
  have hfns : (safeCleanup p).functions = p.functions := hsf.2.1
  simp only [unload_plugin, hp]
  constructor
  · rw [unregister_mcp _ _ _ hfp2, hfns]
  · rw [unregister_schemas _ _ _ hfp2, hfns]

/-- Witness for the amended C1 on the concrete two-plugin registry. -/
theorem C1_unload_removes_exactly_witness :
    alookup (unload_plugin regAB "B").2.mcp_functions "f" =
      (if (alookup ({ pB with initialized := true } : Plugin).functions "f").isSome then none
       else alookup regAB.mcp_functions "f") ∧
    alookup (unload_plugin regAB "B").2.function_schemas "f" =
      (if (alookup ({ pB with initialized := true } : Plugin).functions "f").isSome then none
       else alookup regAB.function_schemas "f") :=
  C1_unload_removes_exactly regAB "B" { pB with initialized := true } "f" rfl rfl

/-- Claim C2 is false as stated: with a loaded middleware whose
`process_request` raises, `call_function` on a published name ends in
`middlewareFault` — the raw exception escapes the dispatch facade — and
not in any `raisedError` failure result. -/
theorem C2_counterexample :
    call_function regMwBoom "f" [] =
      (CallOutcome.middlewareFault "boom", [Ev.mwRequest "mw"]) ∧
    (∀ o : Option String,
      (call_function regMwBoom "f" []).1 ≠ CallOutcome.raisedError o) ∧
    (∀ v : Option Val,
      (call_function regMwBoom "f" []).1 ≠ CallOutcome.returned v) := by
  refine ⟨rfl, ?_, ?_⟩
  · intro o h
    rw [show (call_function regMwBoom "f" []).1 =
        CallOutcome.middlewareFault "boom" from rfl] at h
    exact CallOutcome.noConfusion h
  · intro v h
    rw [show (call_function regMwBoom "f" []).1 =
        CallOutcome.middlewareFault "boom" from rfl] at h
    exact CallOutcome.noConfusion h

/-- Claim C2 (amended): if a middleware raises while processing the
request of a published name, dispatch aborts before the target callable
is invoked — the trace holds no `target` and no response-side hook — and
the middleware's exception itself propagates to the caller, not a failure
result. -/
theorem C2_middleware_fault_aborts (reg : Registry) (fname : String) (kw : Kwargs)
    (e : String) (tr : List Ev) (func : Callable)
    (hf : alookup reg.mcp_functions fname = some func)
    (hreq : processRequestChain reg fname reg.middleware_plugins kw =
      (Except.error e, tr)) :
    call_function reg fname kw = (CallOutcome.middlewareFault e, tr) ∧
    Ev.target ∉ tr ∧ (∀ m, Ev.mwResponse m ∉ tr) := by
  have htr := processRequestChain_trace_shape reg fname reg.middleware_plugins kw
  rw [hreq] at htr
  refine ⟨?_, ?_, ?_⟩
  · unfold call_function
    rw [hf, hreq]
  · intro hmem
    rcases htr Ev.target hmem with ⟨m, hm⟩
    exact Ev.noConfusion hm
  · intro m hmem
    rcases htr (Ev.mwResponse m) hmem with ⟨m2, hm⟩
    exact Ev.noConfusion hm

/-- Witness for the amended C2 on the concrete raising-middleware
registry. -/
theorem C2_middleware_fault_aborts_witness :
    call_function regMwBoom "f" [] =
      (CallOutcome.middlewareFault "boom", [Ev.mwRequest "mw"]) ∧
    Ev.target ∉ [Ev.mwRequest "mw"] ∧
    (∀ m, Ev.mwResponse m ∉ [Ev.mwRequest "mw"]) :=
  C2_middleware_fault_aborts regMwBoom "f" [] "boom" [Ev.mwRequest "mw"]
    (fun _ => Except.ok (Val.vnat 7)) rfl rfl

/-- Claim C7 is false for the already-unloaded case: plugin `P` was
loaded and unloaded once; a second `unload` still finds it registered, so
it reports success (not failure) and invokes `cleanup` a second time. -/
theorem C7_counterexample :
    (unload_plugin regPunloaded "P").1 = true ∧
    (alookup (unload_plugin regPunloaded "P").2.plugins "P").map Plugin.cleanupRuns =
      some 2 :=
  ⟨rfl, rfl⟩

/-- Claim C7 (amended): unloading a name absent from the registry is a
no-op returning failure with the whole state unchanged; unloading any
registered plugin — already unloaded or not — returns success and runs
that plugin's `cleanup` once more. -/
theorem C7_unload_unknown_vs_registered (reg : Registry) (name : String) :
    (alookup reg.plugins name = none → unload_plugin reg name = (false, reg)) ∧
    (∀ p, alookup reg.plugins name = some p →
      (unload_plugin reg name).1 = true ∧
      (alookup (unload_plugin reg name).2.plugins name).map Plugin.cleanupRuns =
        some (p.cleanupRuns + 1)) := by
  constructor
  · intro h
    unfold unload_plugin
    rw [h]
  · intro p hp
    constructor
    · simp only [unload_plugin, hp]
    · simp only [unload_plugin, hp, unregister_plugins]
      rw [alookup_aset_self]
      simp [(safeCleanup_fields p).1]

/-- Witness for the amended C7: an unknown name on the empty registry,
and a freshly loaded plugin unloaded once. -/
theorem C7_unload_unknown_vs_registered_witness :
    unload_plugin {} "X" = (false, ({} : Registry)) ∧
    ((unload_plugin regPloaded "P").1 = true ∧
      (alookup (unload_plugin regPloaded "P").2.plugins "P").map Plugin.cleanupRuns =
        some 1) :=
  ⟨(C7_unload_unknown_vs_registered {} "X").1 rfl,
   (C7_unload_unknown_vs_registered regPloaded "P").2
     { pC7 with initialized := true } rfl⟩

/-- Claim C8: the bridge channel holds no lock or queue — its state is
only the process handle and the correlation counter — so the write and
read of two concurrent calls may interleave freely at the two await
points.  The schedule write A, write B, read B, read A is a legal
interleaving of the two call programs, and under it call B reads the line
answering call A (B's received id equals A's correlation id and differs
from B's own), while the disciplined schedule attributes both correctly:
nothing in the implementation's structure prevents the misattributing
schedule. -/
theorem C8_no_structural_serialization :
    interleavesB [BAct.writeA, BAct.readA] [BAct.writeB, BAct.readB]
        [BAct.writeA, BAct.writeB, BAct.readB, BAct.readA] = true ∧
    (brun [BAct.writeA, BAct.writeB, BAct.readB, BAct.readA]).gotB =
      (brun [BAct.writeA, BAct.writeB, BAct.readB, BAct.readA]).idA ∧
    (brun [BAct.writeA, BAct.writeB, BAct.readB, BAct.readA]).gotB ≠
      (brun [BAct.writeA, BAct.writeB, BAct.readB, BAct.readA]).idB ∧
    (brun [BAct.writeA, BAct.readA, BAct.writeB, BAct.readB]).gotA =
      (brun [BAct.writeA, BAct.readA, BAct.writeB, BAct.readB]).idA ∧
    (brun [BAct.writeA, BAct.readA, BAct.writeB, BAct.readB]).gotB =
      (brun [BAct.writeA, BAct.readA, BAct.writeB, BAct.readB]).idB := by
  decide

/-- Claim C10: flipping the enabled flag of a plugin that is not in the
middleware chain changes nothing about `call_function` on any name — the
table lookup and the registered callable never consult the flag — while
the flag does gate behaviour elsewhere: disabling a subscriber empties
its event deliveries and disabling a middleware changes a dispatch
outcome. -/
theorem C10_enabled_gates_middleware_events_not_dispatch (reg : Registry)
    (pname : String) (b : Bool) (fname : String) (kw : Kwargs)
    (hmw : pname ∉ reg.middleware_plugins) :
    call_function (setEnabled reg pname b) fname kw = call_function reg fname kw ∧
    emit_event (setEnabled regEvtOn "e2" false) "evt" Val.vnull ≠
      emit_event regEvtOn "evt" Val.vnull ∧
    call_function (setEnabled regMwOn "mw2" false) "f" [] ≠
      call_function regMwOn "f" [] := by
  refine ⟨call_function_setEnabled reg pname b fname kw hmw, ?_, ?_⟩
  · intro h
    rw [show emit_event (setEnabled regEvtOn "e2" false) "evt" Val.vnull = [] from rfl,
        show emit_event regEvtOn "evt" Val.vnull =
          [PRsuccess (some (Val.vnat 5))] from rfl] at h
    exact List.noConfusion h
  · intro h
    rw [show call_function (setEnabled regMwOn "mw2" false) "f" [] =
          (CallOutcome.returned (some (Val.vnat 7)), [Ev.target]) from rfl,
        show call_function regMwOn "f" [] =
          (CallOutcome.middlewareFault "mw2 boom", [Ev.mwRequest "mw2"]) from rfl] at h
    rw [Prod.mk.injEq] at h
    exact CallOutcome.noConfusion h.1

/-- Witness for C10: the event registry's subscriber `e2` is not a
middleware, so flipping its flag leaves dispatch unchanged. -/
theorem C10_enabled_gates_middleware_events_not_dispatch_witness :
    (call_function (setEnabled regEvtOn "e2" false) "nope" [] =
        call_function regEvtOn "nope" [] ∧
      emit_event (setEnabled regEvtOn "e2" false) "evt" Val.vnull ≠
        emit_event regEvtOn "evt" Val.vnull ∧
      call_function (setEnabled regMwOn "mw2" false) "f" [] ≠
        call_function regMwOn "f" []) :=
  C10_enabled_gates_middleware_events_not_dispatch regEvtOn "e2" false "nope" []
    (by rw [show regEvtOn.middleware_plugins = [] from rfl]; exact List.not_mem_nil _)
